import Mathlib

/-!
# Verification of the d3-x3d bar chart constructors

Shallow embedding of `src/chart/barChartVertical.js`: the single-series
vertical bar chart (`barChartVertical`) and the multi-series bar chart
(`barChartMultiSeries`).  Closure-captured configuration variables become
explicit state records; rendering becomes a pure function from state and
bound data to a scene-graph tree plus the updated closure state.
-/

namespace D3X3d

/-- A data point of the input dataset: a `{key, value}` pair. -/
structure DataPoint where
  key : String
  value : ℚ
deriving DecidableEq

/-- A series of the input dataset: a `{key, values}` record. -/
structure Series where
  key : String
  values : List DataPoint
deriving DecidableEq

/-- Unique elements of a list keeping first occurrences (order of first
appearance), as d3 ordinal-domain interning and the data summarizer use. -/
def uniqAux (seen : List String) : List String → List String
  | [] => []
  | x :: xs => if x ∈ seen then uniqAux seen xs else x :: uniqAux (x :: seen) xs

/-- Unique elements of a list, keeping the first occurrence of each. -/
def uniq (xs : List String) : List String := uniqAux [] xs

/-- Result of the data summarizer. -/
structure Summary where
  rowKeys : List String
  columnKeys : List String
  maxValue : ℚ
deriving DecidableEq

/-- Modelled from the spec: `dataTransform(data).summary()` is the repository's
data summarizer (module `src/dataTransform`, not among the provided files).
Per the spec it "computes unique row keys, unique column keys, and the
maximum value, used to size scale domains": row keys are the series keys,
column keys the value keys across all series, both deduplicated in first
appearance order; the maximum value ranges over every value of the dataset
(taken as `0` on an empty dataset, which no claim exercises). -/
def summary (data : List Series) : Summary :=
  { rowKeys := uniq (data.map (·.key))
  , columnKeys := uniq ((data.flatMap (·.values)).map (·.key))
  , maxValue := ((data.flatMap (·.values)).map (·.value)).foldr max 0 }

/-!
## d3 scale model

The charts use three d3 scale constructors: `d3.scaleBand`, `d3.scaleLinear`
and `d3.scaleOrdinal`.  A scale is modelled by the data the fluent builder
chain stores in it: domain, range, and (for band scales) padding and
whether the range is rounded.  Ordinal/band domains intern values, keeping
the first occurrence of each (d3 `InternMap` behaviour).
-/

/-- A d3 scale object, as stored by the builder chains the charts use. -/
inductive Scale where
  | band (domain : List String) (range : ℚ × ℚ) (padding : ℚ) (round : Bool)
  | linear (domain : ℚ × ℚ) (range : ℚ × ℚ)
  | ordinal (domain : List String) (range : List String)
deriving DecidableEq

/-- The categorical domain of a scale (empty for a linear scale). -/
def Scale.keyDomain : Scale → List String
  | .band d _ _ _ => d
  | .ordinal d _ => d
  | .linear _ _ => []

/-- The numeric domain of a scale (junk `(0, 0)` for categorical scales). -/
def Scale.numDomain : Scale → ℚ × ℚ
  | .linear d _ => d
  | .band _ _ _ _ => (0, 0)
  | .ordinal _ _ => (0, 0)

/-- The numeric range of a scale, as `scale.range()` returns it
(junk `(0, 0)` for an ordinal scale, whose range is a colour list). -/
def Scale.rangeQ : Scale → ℚ × ℚ
  | .band _ r _ _ => r
  | .linear _ r => r
  | .ordinal _ _ => (0, 0)

/-- Computes `10 ^ z` over `ℚ` for an integer exponent. -/
def pow10 (z : ℤ) : ℚ :=
  if 0 ≤ z then ((10 : ℚ) ^ z.toNat) else ((10 : ℚ) ^ (-z).toNat)⁻¹

/-- Fuelled loop computing `⌊log10 q⌋` of a rational `q ≥ 1` by repeated
division by 10; the fuel bounds the number of divisions. -/
def floorLog10Aux : ℕ → ℚ → ℤ → ℤ
  | 0, _, acc => acc
  | fuel + 1, q, acc => if q < 10 then acc else floorLog10Aux fuel (q / 10) (acc + 1)

/-- Fuelled loop computing `⌈log10 q⌉` of a rational `q > 1`. -/
def ceilLog10Aux : ℕ → ℚ → ℤ → ℤ
  | 0, _, acc => acc
  | fuel + 1, q, acc => if q ≤ 1 then acc else ceilLog10Aux fuel (q / 10) (acc + 1)

/-- Computes `⌊log10 q⌋` for a positive rational `q`, as `Math.floor(Math.log(step) /
Math.LN10)` computes it in d3-array's `tickIncrement`. -/
def floorLog10 (q : ℚ) : ℤ :=
  if 1 ≤ q then floorLog10Aux q.num.natAbs q 0
  else - ceilLog10Aux q⁻¹.num.natAbs q⁻¹ 0

/-- d3-array's `tickIncrement(start, stop, count)`: the tick step for a nice
domain cover, exact over `ℚ` (the square-root thresholds `√50`, `√10`, `√2`
are compared by squaring).  Returns `0` when `stop ≤ start`, where the loop
in `nice` breaks. -/
def tickIncrement (start stop : ℚ) (count : ℕ) : ℚ :=
  let step := (stop - start) / (count : ℚ)
  if step ≤ 0 then 0
  else
    let power := floorLog10 step
    let error := step / pow10 power
    if 0 ≤ power then
      (if 50 ≤ error ^ 2 then 10 else if 10 ≤ error ^ 2 then 5
       else if 2 ≤ error ^ 2 then 2 else 1) * pow10 power
    else
      - pow10 (-power) /
        (if 50 ≤ error ^ 2 then 10 else if 10 ≤ error ^ 2 then 5
         else if 2 ≤ error ^ 2 then 2 else 1)

/-- One round of d3-scale's `nice(count)` loop body state: the current
`start`/`stop` and the previous step. -/
def niceLoop (count : ℕ) : ℕ → Option ℚ → ℚ → ℚ → ℚ × ℚ → ℚ × ℚ
  | 0, _, _, _, dom => dom
  | fuel + 1, prestep, start, stop, dom =>
    let step := tickIncrement start stop count
    if some step = prestep then (start, stop)
    else if 0 < step then
      niceLoop count fuel (some step) ((⌊start / step⌋ : ℚ) * step)
        ((⌈stop / step⌉ : ℚ) * step) dom
    else if step < 0 then
      niceLoop count fuel (some step) ((⌈start * step⌉ : ℚ) / step)
        ((⌊stop * step⌋ : ℚ) / step) dom
    else dom

/-- d3-scale `linear.nice()` with the default count 10: extends the domain to
nice round values.  Runs at most 10 iterations (`maxIter`); if the loop does
not converge the domain is returned unchanged, as in d3. -/
def nice10 (dom : ℚ × ℚ) : ℚ × ℚ :=
  niceLoop 10 10 none dom.1 dom.2 dom

/-- Builder chain `d3.scaleBand().domain(dom).rangeRound(range).padding(p)` /
`.range(range).padding(p)`: the `round` flag records which range setter was
used. -/
def scaleBandOf (dom : List String) (range : ℚ × ℚ) (padding : ℚ)
    (round : Bool) : Scale :=
  Scale.band (uniq dom) range padding round

/-- Builder chain `d3.scaleLinear().domain(dom).range(range).nice()`. -/
def scaleLinearNiceOf (dom : ℚ × ℚ) (range : ℚ × ℚ) : Scale :=
  Scale.linear (nice10 dom) range

/-- Builder chain `d3.scaleOrdinal().domain(dom).range(range)`. -/
def scaleOrdinalOf (dom : List String) (range : List String) : Scale :=
  Scale.ordinal (uniq dom) range

/-!
## Chart closure state

Each constructor call closes over its default properties and (initially
undefined) scale variables.  `VState` is the closure state of
`barChartVertical`, `MState` that of `barChartMultiSeries`; an undefined
scale variable is `none`.
-/

/-- The `dimensions` property `{x, y, z}`. -/
structure Dims where
  x : ℚ
  y : ℚ
  z : ℚ
deriving DecidableEq

/-- Closure state of `barChartVertical`. -/
structure VState where
  width : ℚ
  height : ℚ
  dimensions : Dims
  colors : List String
  classed : String
  debug : Bool
  xScale : Option Scale
  yScale : Option Scale
  colorScale : Option Scale
deriving DecidableEq

/-- Default properties of `barChartVertical` at construction. -/
def VState.initial : VState :=
  { width := 500, height := 500, dimensions := ⟨40, 40, 40⟩
  , colors := ["green", "red", "yellow", "steelblue", "orange"]
  , classed := "x3dBarChartVertical", debug := false
  , xScale := none, yScale := none, colorScale := none }

/-- Closure state of `barChartMultiSeries`. -/
structure MState where
  width : ℚ
  height : ℚ
  dimensions : Dims
  colors : List String
  classed : String
  debug : Bool
  xScale : Option Scale
  yScale : Option Scale
  zScale : Option Scale
  colorScale : Option Scale
deriving DecidableEq

/-- Default properties of `barChartMultiSeries` at construction. -/
def MState.initial : MState :=
  { width := 500, height := 500, dimensions := ⟨40, 40, 40⟩
  , colors := ["green", "red", "yellow", "steelblue", "orange"]
  , classed := "x3dBarChartMultiSeries", debug := false
  , xScale := none, yScale := none, zScale := none, colorScale := none }

/-- The chart `barChartVertical`'s private `init(data)`: derives each scale that is
still undefined.  The x scale is a band scale over the column keys with
rounded range `[0, dimensions.x]` and padding `0.5`; the y scale a linear
scale over `[0, maxValue]` with range `[0, dimensions.y]`, niced; the colour
scale an ordinal scale over the column keys ranged over `colors`. -/
def initV (s : VState) (data : List Series) : VState :=
  let sum := summary data
  let extent : ℚ × ℚ := (0, sum.maxValue)
  let bandX := scaleBandOf sum.columnKeys (0, s.dimensions.x) (1/2) true
  let s1 := if s.xScale.isNone then { s with xScale := some bandX } else s
  let linY := scaleLinearNiceOf extent (0, s1.dimensions.y)
  let s2 := if s1.yScale.isNone then { s1 with yScale := some linY } else s1
  let ordC := scaleOrdinalOf sum.columnKeys s2.colors
  let s3 := if s2.colorScale.isNone then { s2 with colorScale := some ordC } else s2
  s3

/-- The chart `barChartMultiSeries`'s private `init(data)`.  Mirrors `initV` with an
additional z band scale over the row keys (range `[0, dimensions.z]`, not
rounded, padding `0.7`), except that the y-scale branch computes the linear
scale and discards it without assigning `yScale` — the statement in the
source is the bare expression `d3.scaleLinear()...nice();`, so `yScale`
stays undefined. -/
def initM (s : MState) (data : List Series) : MState :=
  let sum := summary data
  let extent : ℚ × ℚ := (0, sum.maxValue)
  let bandX := scaleBandOf sum.columnKeys (0, s.dimensions.x) (1/2) true
  let s1 := if s.xScale.isNone then { s with xScale := some bandX } else s
  let s2 := if s1.yScale.isNone then
      (let d := scaleLinearNiceOf extent (0, s1.dimensions.y); let _ := d; s1)
    else s1
  let bandZ := scaleBandOf sum.rowKeys (0, s2.dimensions.z) (7/10) false
  let s3 := if s2.zScale.isNone then { s2 with zScale := some bandZ } else s2
  let ordC := scaleOrdinalOf sum.columnKeys s3.colors
  let s4 := if s3.colorScale.isNone then { s3 with colorScale := some ordC } else s3
  s4

/-!
## Scene graph

Rendering produces a tree of X3D markup nodes.  Sub-components live in the
repository's `src/component` module, which is not among the provided files;
they are therefore recorded as opaque invocation leaves carrying exactly the
configuration and datum the chart hands them (Modelled from the spec:
"binds the prepared scales and color palette into axis-rendering and
bar-rendering sub-components (external collaborators), then invokes them
against the corresponding group nodes with the bound data").
-/

/-- A sub-component invocation: which component was constructed, with which
bound configuration, and (for the bars components) which datum. -/
inductive ComponentCall where
  | viewpoint (quickView : Option String) (centerOfRotation : Option (ℚ × ℚ × ℚ))
  | axis (scale : Option Scale) (dir : String) (tickDir : String)
      (tickSize : Option ℚ)
  | bars (xScale : Option Scale) (yScale : Option Scale) (colors : List String)
      (datum : List Series)
  | axisThreePlane (xScale : Option Scale) (yScale : Option Scale)
      (zScale : Option Scale)
  | barsMultiSeries (xScale : Option Scale) (yScale : Option Scale)
      (zScale : Option Scale) (colors : List String) (datum : List Series)
deriving DecidableEq

/-- A node of the rendered markup tree: either an element with a tag,
attribute list, class list and children, or an opaque sub-component
invocation rendered at that position. -/
inductive XNode where
  | elem (tag : String) (attrs : List (String × String))
      (classes : List String) (children : List XNode)
  | comp (call : ComponentCall)

mutual

/-- All sub-component invocations of a markup tree, in document order. -/
def XNode.comps : XNode → List ComponentCall
  | .comp c => [c]
  | .elem _ _ _ children => compsList children

/-- All sub-component invocations of a forest of markup trees. -/
def compsList : List XNode → List ComponentCall
  | [] => []
  | n :: ns => n.comps ++ compsList ns

end

mutual

/-- The element nodes with a given tag in a markup tree, in document order. -/
def XNode.nodesWithTag (t : String) : XNode → List XNode
  | .comp _ => []
  | .elem tag attrs classes children =>
    (if tag = t then [XNode.elem tag attrs classes children] else []) ++
      nodesWithTagList t children

/-- The element nodes with a given tag in a forest of markup trees. -/
def nodesWithTagList (t : String) : List XNode → List XNode
  | [] => []
  | n :: ns => n.nodesWithTag t ++ nodesWithTagList t ns

end

/-- The attribute list of a markup node (empty for a component leaf). -/
def XNode.attrsOf : XNode → List (String × String)
  | .elem _ attrs _ _ => attrs
  | .comp _ => []

/-- Attributes of the root `x3d` element: width and height in px, plus the
debug log/statistics attributes when the debug flag is set. -/
def x3dAttrs (w h : ℚ) (debug : Bool) : List (String × String) :=
  [("width", toString w ++ "px"), ("height", toString h ++ "px")] ++
    (if debug then [("showLog", "true"), ("showStat", "true")] else [])

/-- The fixed attributes of the directional light `barChartMultiSeries`
appends to the scene. -/
def lightAttrs : List (String × String) :=
  [("direction", "1 0 -1"), ("on", "true"), ("intensity", "0.4"),
   ("shadowintensity", "0")]

/-- The quantity `yScale.range()[1] - yScale.range()[0]`, the tick size handed to the
vertical chart's y axis (junk `0` on an undefined scale, a case `initV`
makes unreachable). -/
def rangeExtent : Option Scale → ℚ
  | some sc => sc.rangeQ.2 - sc.rangeQ.1
  | none => 0

/-- The constructor body `my(selection)` of `barChartVertical`: appends the
`x3d` viewport sized from the configuration, the scene with class `classed`,
the three layer groups `xAxis`/`yAxis`/`chart`, the viewpoint component
(quick view "left"), then runs `init` on the bound data and invokes the
x-axis, y-axis and bars components against their groups.  Returns the
markup tree together with the updated closure state. -/
def renderV (s : VState) (data : List Series) : XNode × VState :=
  let s' := initV s data
  let xAxisCall := ComponentCall.axis s'.xScale "x" "y" none
  let yAxisCall := ComponentCall.axis s'.yScale "y" "x"
    (some (rangeExtent s'.yScale))
  let chartCall := ComponentCall.bars s'.xScale s'.yScale s'.colors data
  let scene := XNode.elem "scene" [] [s.classed]
    [ XNode.elem "group" [("class", "xAxis")] [] [XNode.comp xAxisCall]
    , XNode.elem "group" [("class", "yAxis")] [] [XNode.comp yAxisCall]
    , XNode.elem "group" [("class", "chart")] [] [XNode.comp chartCall]
    , XNode.comp (ComponentCall.viewpoint (some "left") none) ]
  (XNode.elem "x3d" (x3dAttrs s.width s.height s.debug) [] [scene], s')

/-- The constructor body `my(selection)` of `barChartMultiSeries`: appends
the `x3d` viewport, the scene, the two layer groups `axis`/`chart`, the
viewpoint component centred on the middle of the dimensions box, a
directional light with fixed attributes, then runs `init` and invokes the
three-plane axis and multi-series bars components against their groups. -/
def renderM (s : MState) (data : List Series) : XNode × MState :=
  let s' := initM s data
  let axisCall := ComponentCall.axisThreePlane s'.xScale s'.yScale s'.zScale
  let chartCall := ComponentCall.barsMultiSeries s'.xScale s'.yScale s'.zScale
    s'.colors data
  let scene := XNode.elem "scene" [] [s.classed]
    [ XNode.elem "group" [("class", "axis")] [] [XNode.comp axisCall]
    , XNode.elem "group" [("class", "chart")] [] [XNode.comp chartCall]
    , XNode.comp (ComponentCall.viewpoint none
        (some (s.dimensions.x / 2, s.dimensions.y / 2, s.dimensions.z / 2)))
    , XNode.elem "directionallight" lightAttrs [] [] ]
  (XNode.elem "x3d" (x3dAttrs s.width s.height s.debug) [] [scene], s')

/-!
## Configuration accessors

Each accessor is a single JavaScript function: with no arguments it returns
the current value, with one argument it assigns the captured variable and
returns the chart instance.  We model a call as taking an `Option`al
argument (`none` = no arguments) and returning the produced value — either
the read value (`Sum.inl`) or the chart instance (`Sum.inr`) — paired with
the closure state after the call. -/

/-- Accessor `my.width` of `barChartVertical`. -/
def VState.widthAcc (s : VState) : Option ℚ → (ℚ ⊕ VState) × VState
  | none => (Sum.inl s.width, s)
  | some v => (Sum.inr { s with width := v }, { s with width := v })

/-- Accessor `my.height` of `barChartVertical`. -/
def VState.heightAcc (s : VState) : Option ℚ → (ℚ ⊕ VState) × VState
  | none => (Sum.inl s.height, s)
  | some v => (Sum.inr { s with height := v }, { s with height := v })

/-- Accessor `my.dimensions` of `barChartVertical`. -/
def VState.dimensionsAcc (s : VState) : Option Dims → (Dims ⊕ VState) × VState
  | none => (Sum.inl s.dimensions, s)
  | some v => (Sum.inr { s with dimensions := v }, { s with dimensions := v })

/-- Accessor `my.xScale` of `barChartVertical` (the read value is `none` while the
captured variable is still undefined). -/
def VState.xScaleAcc (s : VState) : Option Scale → (Option Scale ⊕ VState) × VState
  | none => (Sum.inl s.xScale, s)
  | some v => (Sum.inr { s with xScale := some v }, { s with xScale := some v })

/-- Accessor `my.yScale` of `barChartVertical`. -/
def VState.yScaleAcc (s : VState) : Option Scale → (Option Scale ⊕ VState) × VState
  | none => (Sum.inl s.yScale, s)
  | some v => (Sum.inr { s with yScale := some v }, { s with yScale := some v })

/-- Accessor `my.colorScale` of `barChartVertical`. -/
def VState.colorScaleAcc (s : VState) :
    Option Scale → (Option Scale ⊕ VState) × VState
  | none => (Sum.inl s.colorScale, s)
  | some v =>
    (Sum.inr { s with colorScale := some v }, { s with colorScale := some v })

/-- Accessor `my.colors` of `barChartVertical`. -/
def VState.colorsAcc (s : VState) :
    Option (List String) → (List String ⊕ VState) × VState
  | none => (Sum.inl s.colors, s)
  | some v => (Sum.inr { s with colors := v }, { s with colors := v })

/-- Accessor `my.debug` of `barChartVertical`. -/
def VState.debugAcc (s : VState) : Option Bool → (Bool ⊕ VState) × VState
  | none => (Sum.inl s.debug, s)
  | some v => (Sum.inr { s with debug := v }, { s with debug := v })

/-- Accessor `my.width` of `barChartMultiSeries`. -/
def MState.widthAcc (s : MState) : Option ℚ → (ℚ ⊕ MState) × MState
  | none => (Sum.inl s.width, s)
  | some v => (Sum.inr { s with width := v }, { s with width := v })

/-- Accessor `my.height` of `barChartMultiSeries`. -/
def MState.heightAcc (s : MState) : Option ℚ → (ℚ ⊕ MState) × MState
  | none => (Sum.inl s.height, s)
  | some v => (Sum.inr { s with height := v }, { s with height := v })

/-- Accessor `my.dimensions` of `barChartMultiSeries`. -/
def MState.dimensionsAcc (s : MState) : Option Dims → (Dims ⊕ MState) × MState
  | none => (Sum.inl s.dimensions, s)
  | some v => (Sum.inr { s with dimensions := v }, { s with dimensions := v })

/-- Accessor `my.xScale` of `barChartMultiSeries`. -/
def MState.xScaleAcc (s : MState) : Option Scale → (Option Scale ⊕ MState) × MState
  | none => (Sum.inl s.xScale, s)
  | some v => (Sum.inr { s with xScale := some v }, { s with xScale := some v })

/-- Accessor `my.yScale` of `barChartMultiSeries`. -/
def MState.yScaleAcc (s : MState) : Option Scale → (Option Scale ⊕ MState) × MState
  | none => (Sum.inl s.yScale, s)
  | some v => (Sum.inr { s with yScale := some v }, { s with yScale := some v })

/-- Accessor `my.zScale` of `barChartMultiSeries`. -/
def MState.zScaleAcc (s : MState) : Option Scale → (Option Scale ⊕ MState) × MState
  | none => (Sum.inl s.zScale, s)
  | some v => (Sum.inr { s with zScale := some v }, { s with zScale := some v })

/-- Accessor `my.colorScale` of `barChartMultiSeries`. -/
def MState.colorScaleAcc (s : MState) :
    Option Scale → (Option Scale ⊕ MState) × MState
  | none => (Sum.inl s.colorScale, s)
  | some v =>
    (Sum.inr { s with colorScale := some v }, { s with colorScale := some v })

/-- Accessor `my.colors` of `barChartMultiSeries`. -/
def MState.colorsAcc (s : MState) :
    Option (List String) → (List String ⊕ MState) × MState
  | none => (Sum.inl s.colors, s)
  | some v => (Sum.inr { s with colors := v }, { s with colors := v })

/-- Accessor `my.debug` of `barChartMultiSeries`. -/
def MState.debugAcc (s : MState) : Option Bool → (Bool ⊕ MState) × MState
  | none => (Sum.inl s.debug, s)
  | some v => (Sum.inr { s with debug := v }, { s with debug := v })

/-!
## Concrete inputs used by the end-to-end statements and witnesses
-/

/-- The dataset of the end-to-end vertical-chart property:
`[{key:"A", values:[{key:"q1", value:10}, {key:"q2", value:20}]}]`. -/
def sampleData : List Series :=
  [⟨"A", [⟨"q1", 10⟩, ⟨"q2", 20⟩]⟩]

/-- A concrete two-series dataset. -/
def sampleData2 : List Series :=
  [⟨"S1", [⟨"q1", 10⟩, ⟨"q2", 20⟩]⟩, ⟨"S2", [⟨"q1", 15⟩, ⟨"q2", 5⟩]⟩]

/-- A concrete caller-supplied band scale. -/
def scaleA : Scale := Scale.band ["a", "b"] (0, 100) (1/4) false

/-- A concrete caller-supplied linear scale. -/
def scaleB : Scale := Scale.linear (0, 50) (0, 90)

/-- A concrete caller-supplied ordinal scale. -/
def scaleC : Scale := Scale.ordinal ["a", "b"] ["red", "blue"]

/-- A concrete caller-supplied band scale for the z axis. -/
def scaleD : Scale := Scale.band ["s", "t"] (0, 60) (1/5) true

/-- A vertical-chart state with every scale supplied by the caller. -/
def vSupplied : VState :=
  { VState.initial with
      xScale := some scaleA,
      yScale := some scaleB,
      colorScale := some scaleC }

/-- A multi-series-chart state with every scale supplied by the caller. -/
def mSupplied : MState :=
  { MState.initial with
      xScale := some scaleA,
      yScale := some scaleB,
      zScale := some scaleD,
      colorScale := some scaleC }

/-!
## Projection lemmas for the lazy scale derivation
-/

theorem initV_width (s : VState) (d : List Series) : (initV s d).width = s.width := by
  simp only [initV]; split <;> split <;> split <;> rfl

theorem initV_height (s : VState) (d : List Series) : (initV s d).height = s.height := by
  simp only [initV]; split <;> split <;> split <;> rfl

theorem initV_dimensions (s : VState) (d : List Series) :
    (initV s d).dimensions = s.dimensions := by
  simp only [initV]; split <;> split <;> split <;> rfl

theorem initV_colors (s : VState) (d : List Series) : (initV s d).colors = s.colors := by
  simp only [initV]; split <;> split <;> split <;> rfl

theorem initV_classed (s : VState) (d : List Series) :
    (initV s d).classed = s.classed := by
  simp only [initV]; split <;> split <;> split <;> rfl

theorem initV_debug (s : VState) (d : List Series) : (initV s d).debug = s.debug := by
  simp only [initV]; split <;> split <;> split <;> rfl

theorem initV_xScale (s : VState) (d : List Series) :
    (initV s d).xScale = if s.xScale.isNone then
      some (scaleBandOf (summary d).columnKeys (0, s.dimensions.x) (1/2) true)
    else s.xScale := by
  simp only [initV]; split <;> split <;> split <;> rfl

theorem initV_yScale (s : VState) (d : List Series) :
    (initV s d).yScale = if s.yScale.isNone then
      some (scaleLinearNiceOf (0, (summary d).maxValue) (0, s.dimensions.y))
    else s.yScale := by
  simp only [initV]; split <;> split <;> split <;> rfl

theorem initV_colorScale (s : VState) (d : List Series) :
    (initV s d).colorScale = if s.colorScale.isNone then
      some (scaleOrdinalOf (summary d).columnKeys s.colors)
    else s.colorScale := by
  simp only [initV]; split <;> split <;> split <;> rfl

theorem initM_width (s : MState) (d : List Series) : (initM s d).width = s.width := by
  simp only [initM]; split <;> split <;> split <;> split <;> rfl

theorem initM_height (s : MState) (d : List Series) : (initM s d).height = s.height := by
  simp only [initM]; split <;> split <;> split <;> split <;> rfl

theorem initM_dimensions (s : MState) (d : List Series) :
    (initM s d).dimensions = s.dimensions := by
  simp only [initM]; split <;> split <;> split <;> split <;> rfl

theorem initM_colors (s : MState) (d : List Series) : (initM s d).colors = s.colors := by
  simp only [initM]; split <;> split <;> split <;> split <;> rfl

theorem initM_classed (s : MState) (d : List Series) :
    (initM s d).classed = s.classed := by
  simp only [initM]; split <;> split <;> split <;> split <;> rfl

theorem initM_debug (s : MState) (d : List Series) : (initM s d).debug = s.debug := by
  simp only [initM]; split <;> split <;> split <;> split <;> rfl

theorem initM_xScale (s : MState) (d : List Series) :
    (initM s d).xScale = if s.xScale.isNone then
      some (scaleBandOf (summary d).columnKeys (0, s.dimensions.x) (1/2) true)
    else s.xScale := by
  simp only [initM]; split <;> split <;> split <;> split <;> rfl

theorem initM_yScale (s : MState) (d : List Series) :
    (initM s d).yScale = s.yScale := by
  simp only [initM]; split <;> split <;> split <;> split <;> rfl

theorem initM_zScale (s : MState) (d : List Series) :
    (initM s d).zScale = if s.zScale.isNone then
      some (scaleBandOf (summary d).rowKeys (0, s.dimensions.z) (7/10) false)
    else s.zScale := by
  simp only [initM]; split <;> split <;> split <;> split <;> rfl

theorem initM_colorScale (s : MState) (d : List Series) :
    (initM s d).colorScale = if s.colorScale.isNone then
      some (scaleOrdinalOf (summary d).columnKeys s.colors)
    else s.colorScale := by
  simp only [initM]; split <;> split <;> split <;> split <;> rfl

theorem initV_xScale_isNone (s : VState) (d : List Series) :
    ((initV s d).xScale).isNone = false := by
  rw [initV_xScale]; cases h : s.xScale <;> simp [h]

theorem initV_yScale_isNone (s : VState) (d : List Series) :
    ((initV s d).yScale).isNone = false := by
  rw [initV_yScale]; cases h : s.yScale <;> simp [h]

theorem initV_colorScale_isNone (s : VState) (d : List Series) :
    ((initV s d).colorScale).isNone = false := by
  rw [initV_colorScale]; cases h : s.colorScale <;> simp [h]

theorem initM_xScale_isNone (s : MState) (d : List Series) :
    ((initM s d).xScale).isNone = false := by
  rw [initM_xScale]; cases h : s.xScale <;> simp [h]

theorem initM_zScale_isNone (s : MState) (d : List Series) :
    ((initM s d).zScale).isNone = false := by
  rw [initM_zScale]; cases h : s.zScale <;> simp [h]

theorem initM_colorScale_isNone (s : MState) (d : List Series) :
    ((initM s d).colorScale).isNone = false := by
  rw [initM_colorScale]; cases h : s.colorScale <;> simp [h]

theorem VState.vFieldsEq (a b : VState) (h1 : a.width = b.width)
    (h2 : a.height = b.height) (h3 : a.dimensions = b.dimensions)
    (h4 : a.colors = b.colors) (h5 : a.classed = b.classed)
    (h6 : a.debug = b.debug) (h7 : a.xScale = b.xScale)
    (h8 : a.yScale = b.yScale) (h9 : a.colorScale = b.colorScale) : a = b := by
  cases a; cases b; simp_all

theorem MState.mFieldsEq (a b : MState) (h1 : a.width = b.width)
    (h2 : a.height = b.height) (h3 : a.dimensions = b.dimensions)
    (h4 : a.colors = b.colors) (h5 : a.classed = b.classed)
    (h6 : a.debug = b.debug) (h7 : a.xScale = b.xScale)
    (h8 : a.yScale = b.yScale) (h9 : a.zScale = b.zScale)
    (h10 : a.colorScale = b.colorScale) : a = b := by
  cases a; cases b; simp_all

theorem initV_idem (s : VState) (d : List Series) :
    initV (initV s d) d = initV s d := by
  apply VState.vFieldsEq
  · exact initV_width _ _
  · exact initV_height _ _
  · exact initV_dimensions _ _
  · exact initV_colors _ _
  · exact initV_classed _ _
  · exact initV_debug _ _
  · rw [initV_xScale (initV s d) d, initV_xScale_isNone]; simp
  · rw [initV_yScale (initV s d) d, initV_yScale_isNone]; simp
  · rw [initV_colorScale (initV s d) d, initV_colorScale_isNone]; simp

theorem initM_idem (s : MState) (d : List Series) :
    initM (initM s d) d = initM s d := by
  apply MState.mFieldsEq
  · exact initM_width _ _
  · exact initM_height _ _
  · exact initM_dimensions _ _
  · exact initM_colors _ _
  · exact initM_classed _ _
  · exact initM_debug _ _
  · rw [initM_xScale (initM s d) d, initM_xScale_isNone]; simp
  · exact initM_yScale _ _
  · rw [initM_zScale (initM s d) d, initM_zScale_isNone]; simp
  · rw [initM_colorScale (initM s d) d, initM_colorScale_isNone]; simp

/-- Evaluation of d3's tick increment on the domain `[0, 20]` with the
default tick count. -/
theorem tickIncrement_0_20 : tickIncrement 0 20 10 = 2 := by
  norm_num [tickIncrement, floorLog10, floorLog10Aux, pow10]

/-- The defining equation of `niceLoop` at a successor fuel value. -/
theorem niceLoop_succ (count fuel : ℕ) (prestep : Option ℚ) (start stop : ℚ)
    (dom : ℚ × ℚ) :
    niceLoop count (fuel + 1) prestep start stop dom =
      (let step := tickIncrement start stop count
       if some step = prestep then (start, stop)
       else if 0 < step then
         niceLoop count fuel (some step) ((⌊start / step⌋ : ℚ) * step)
           ((⌈stop / step⌉ : ℚ) * step) dom
       else if step < 0 then
         niceLoop count fuel (some step) ((⌈start * step⌉ : ℚ) / step)
           ((⌊stop * step⌋ : ℚ) / step) dom
       else dom) := rfl

/-- Evaluation showing `nice()` leaves the already-nice domain `[0, 20]` unchanged. -/
theorem nice10_0_20 : nice10 ((0 : ℚ), 20) = (0, 20) := by
  have h10 : niceLoop 10 10 none 0 20 ((0 : ℚ), 20) =
      niceLoop 10 9 (some 2) 0 20 ((0 : ℚ), 20) := by
    show niceLoop 10 (9 + 1) none 0 20 ((0 : ℚ), 20) = _
    rw [niceLoop_succ, tickIncrement_0_20]
    norm_num [Option.some_ne_none]
  have h9 : niceLoop 10 9 (some 2) 0 20 ((0 : ℚ), 20) = (0, 20) := by
    show niceLoop 10 (8 + 1) (some 2) 0 20 ((0 : ℚ), 20) = _
    rw [niceLoop_succ, tickIncrement_0_20]
    norm_num
  rw [nice10, h10, h9]

/-- Evaluation of the data summarizer on the end-to-end dataset. -/
theorem summary_sampleData : summary sampleData = ⟨["A"], ["q1", "q2"], 20⟩ := by
  norm_num [summary, sampleData, uniq, uniqAux, max_def]
  decide

/-!
## Claim theorems
-/

/-- Claim C1: in the multi-series bar chart, the y-scale lazy-construction
branch of `init` computes a linear scale but does not assign it to the
captured `yScale` variable: whenever the caller has not supplied a y-scale,
after rendering the `yScale` variable (as the `yScale` getter observes it)
is still undefined. -/
theorem multiSeries_yScale_stays_undefined (s : MState) (d : List Series)
    (h : s.yScale = none) : (renderM s d).2.yScale = none := by
  show (initM s d).yScale = none
  rw [initM_yScale, h]

/-- Witness for C1: rendering a fresh multi-series chart on a concrete
two-series dataset leaves `yScale` undefined. -/
theorem multiSeries_yScale_stays_undefined_witness :
    MState.initial.yScale = none ∧
      (renderM MState.initial sampleData2).2.yScale = none :=
  ⟨rfl, multiSeries_yScale_stays_undefined MState.initial sampleData2 rfl⟩

/-- Claim C2: on both charts, a caller-supplied scale is left unchanged by
the lazy-derivation branch of `init`, and the scales handed to every
sub-component of a render are exactly the scale variables of the
post-`init` closure state — hence the caller-supplied ones where
supplied. -/
theorem supplied_scales_precedence (sv : VState) (sm : MState)
    (d : List Series) (v : Scale) :
    (sv.xScale = some v → (renderV sv d).2.xScale = some v) ∧
    (sv.yScale = some v → (renderV sv d).2.yScale = some v) ∧
    (sv.colorScale = some v → (renderV sv d).2.colorScale = some v) ∧
    (sm.xScale = some v → (renderM sm d).2.xScale = some v) ∧
    (sm.yScale = some v → (renderM sm d).2.yScale = some v) ∧
    (sm.zScale = some v → (renderM sm d).2.zScale = some v) ∧
    (sm.colorScale = some v → (renderM sm d).2.colorScale = some v) ∧
    (renderV sv d).1.comps =
      [ ComponentCall.axis (renderV sv d).2.xScale "x" "y" none
      , ComponentCall.axis (renderV sv d).2.yScale "y" "x"
          (some (rangeExtent (renderV sv d).2.yScale))
      , ComponentCall.bars (renderV sv d).2.xScale (renderV sv d).2.yScale
          (renderV sv d).2.colors d
      , ComponentCall.viewpoint (some "left") none ] ∧
    (renderM sm d).1.comps =
      [ ComponentCall.axisThreePlane (renderM sm d).2.xScale
          (renderM sm d).2.yScale (renderM sm d).2.zScale
      , ComponentCall.barsMultiSeries (renderM sm d).2.xScale
          (renderM sm d).2.yScale (renderM sm d).2.zScale
          (renderM sm d).2.colors d
      , ComponentCall.viewpoint none
          (some (sm.dimensions.x / 2, sm.dimensions.y / 2, sm.dimensions.z / 2)) ] := by
  refine ⟨?_, ?_, ?_, ?_, ?_, ?_, ?_, ?_, ?_⟩
  · intro h
    show (initV sv d).xScale = some v
    rw [initV_xScale, h]; simp
  · intro h
    show (initV sv d).yScale = some v
    rw [initV_yScale, h]; simp
  · intro h
    show (initV sv d).colorScale = some v
    rw [initV_colorScale, h]; simp
  · intro h
    show (initM sm d).xScale = some v
    rw [initM_xScale, h]; simp
  · intro h
    show (initM sm d).yScale = some v
    rw [initM_yScale]; exact h
  · intro h
    show (initM sm d).zScale = some v
    rw [initM_zScale, h]; simp
  · intro h
    show (initM sm d).colorScale = some v
    rw [initM_colorScale, h]; simp
  · simp [renderV, XNode.comps, compsList]
  · simp [renderM, XNode.comps, compsList]

/-- Witness for C2: with every scale caller-supplied, both charts keep the
supplied scales through a render. -/
theorem supplied_scales_precedence_witness :
    ((renderV vSupplied sampleData2).2.xScale = some scaleA ∧
     (renderV vSupplied sampleData2).2.yScale = some scaleB ∧
     (renderV vSupplied sampleData2).2.colorScale = some scaleC) ∧
    ((renderM mSupplied sampleData2).2.xScale = some scaleA ∧
     (renderM mSupplied sampleData2).2.yScale = some scaleB ∧
     (renderM mSupplied sampleData2).2.zScale = some scaleD ∧
     (renderM mSupplied sampleData2).2.colorScale = some scaleC) :=
  ⟨⟨(supplied_scales_precedence vSupplied mSupplied sampleData2 scaleA).1 rfl,
    (supplied_scales_precedence vSupplied mSupplied sampleData2 scaleB).2.1 rfl,
    (supplied_scales_precedence vSupplied mSupplied sampleData2 scaleC).2.2.1 rfl⟩,
   ⟨(supplied_scales_precedence vSupplied mSupplied sampleData2 scaleA).2.2.2.1 rfl,
    (supplied_scales_precedence vSupplied mSupplied sampleData2 scaleB).2.2.2.2.1 rfl,
    (supplied_scales_precedence vSupplied mSupplied sampleData2 scaleD).2.2.2.2.2.1 rfl,
    (supplied_scales_precedence vSupplied mSupplied sampleData2 scaleC).2.2.2.2.2.2.1 rfl⟩⟩

/-- Claim C3: every configuration accessor of either chart, called with an
argument, returns the chart instance (the post-call closure state), and a
subsequent call with no arguments returns exactly the assigned value. -/
theorem accessor_roundtrip_and_chaining (sv : VState) (sm : MState) (q r : ℚ)
    (dm : Dims) (sc : Scale) (cl : List String) (b : Bool) :
    ((sv.widthAcc (some q)).1 = Sum.inr (sv.widthAcc (some q)).2 ∧
      (((sv.widthAcc (some q)).2).widthAcc none).1 = Sum.inl q) ∧
    ((sv.heightAcc (some r)).1 = Sum.inr (sv.heightAcc (some r)).2 ∧
      (((sv.heightAcc (some r)).2).heightAcc none).1 = Sum.inl r) ∧
    ((sv.dimensionsAcc (some dm)).1 = Sum.inr (sv.dimensionsAcc (some dm)).2 ∧
      (((sv.dimensionsAcc (some dm)).2).dimensionsAcc none).1 = Sum.inl dm) ∧
    ((sv.xScaleAcc (some sc)).1 = Sum.inr (sv.xScaleAcc (some sc)).2 ∧
      (((sv.xScaleAcc (some sc)).2).xScaleAcc none).1 = Sum.inl (some sc)) ∧
    ((sv.yScaleAcc (some sc)).1 = Sum.inr (sv.yScaleAcc (some sc)).2 ∧
      (((sv.yScaleAcc (some sc)).2).yScaleAcc none).1 = Sum.inl (some sc)) ∧
    ((sv.colorScaleAcc (some sc)).1 = Sum.inr (sv.colorScaleAcc (some sc)).2 ∧
      (((sv.colorScaleAcc (some sc)).2).colorScaleAcc none).1 = Sum.inl (some sc)) ∧
    ((sv.colorsAcc (some cl)).1 = Sum.inr (sv.colorsAcc (some cl)).2 ∧
      (((sv.colorsAcc (some cl)).2).colorsAcc none).1 = Sum.inl cl) ∧
    ((sv.debugAcc (some b)).1 = Sum.inr (sv.debugAcc (some b)).2 ∧
      (((sv.debugAcc (some b)).2).debugAcc none).1 = Sum.inl b) ∧
    ((sm.widthAcc (some q)).1 = Sum.inr (sm.widthAcc (some q)).2 ∧
      (((sm.widthAcc (some q)).2).widthAcc none).1 = Sum.inl q) ∧
    ((sm.heightAcc (some r)).1 = Sum.inr (sm.heightAcc (some r)).2 ∧
      (((sm.heightAcc (some r)).2).heightAcc none).1 = Sum.inl r) ∧
    ((sm.dimensionsAcc (some dm)).1 = Sum.inr (sm.dimensionsAcc (some dm)).2 ∧
      (((sm.dimensionsAcc (some dm)).2).dimensionsAcc none).1 = Sum.inl dm) ∧
    ((sm.xScaleAcc (some sc)).1 = Sum.inr (sm.xScaleAcc (some sc)).2 ∧
      (((sm.xScaleAcc (some sc)).2).xScaleAcc none).1 = Sum.inl (some sc)) ∧
    ((sm.yScaleAcc (some sc)).1 = Sum.inr (sm.yScaleAcc (some sc)).2 ∧
      (((sm.yScaleAcc (some sc)).2).yScaleAcc none).1 = Sum.inl (some sc)) ∧
    ((sm.zScaleAcc (some sc)).1 = Sum.inr (sm.zScaleAcc (some sc)).2 ∧
      (((sm.zScaleAcc (some sc)).2).zScaleAcc none).1 = Sum.inl (some sc)) ∧
    ((sm.colorScaleAcc (some sc)).1 = Sum.inr (sm.colorScaleAcc (some sc)).2 ∧
      (((sm.colorScaleAcc (some sc)).2).colorScaleAcc none).1 = Sum.inl (some sc)) ∧
    ((sm.colorsAcc (some cl)).1 = Sum.inr (sm.colorsAcc (some cl)).2 ∧
      (((sm.colorsAcc (some cl)).2).colorsAcc none).1 = Sum.inl cl) ∧
    ((sm.debugAcc (some b)).1 = Sum.inr (sm.debugAcc (some b)).2 ∧
      (((sm.debugAcc (some b)).2).debugAcc none).1 = Sum.inl b) :=
  ⟨⟨rfl, rfl⟩, ⟨rfl, rfl⟩, ⟨rfl, rfl⟩, ⟨rfl, rfl⟩, ⟨rfl, rfl⟩, ⟨rfl, rfl⟩,
   ⟨rfl, rfl⟩, ⟨rfl, rfl⟩, ⟨rfl, rfl⟩, ⟨rfl, rfl⟩, ⟨rfl, rfl⟩, ⟨rfl, rfl⟩,
   ⟨rfl, rfl⟩, ⟨rfl, rfl⟩, ⟨rfl, rfl⟩, ⟨rfl, rfl⟩, ⟨rfl, rfl⟩⟩

/-- Claim C4: on a freshly constructed chart, before any setter call or
render, each configuration accessor called with no arguments returns the
documented default; the scale accessors return undefined. -/
theorem accessor_defaults :
    (VState.initial.widthAcc none).1 = Sum.inl 500 ∧
    (VState.initial.heightAcc none).1 = Sum.inl 500 ∧
    (VState.initial.dimensionsAcc none).1 = Sum.inl ⟨40, 40, 40⟩ ∧
    (VState.initial.colorsAcc none).1 =
      Sum.inl ["green", "red", "yellow", "steelblue", "orange"] ∧
    (VState.initial.debugAcc none).1 = Sum.inl false ∧
    (VState.initial.xScaleAcc none).1 = Sum.inl none ∧
    (VState.initial.yScaleAcc none).1 = Sum.inl none ∧
    (VState.initial.colorScaleAcc none).1 = Sum.inl none ∧
    (MState.initial.widthAcc none).1 = Sum.inl 500 ∧
    (MState.initial.heightAcc none).1 = Sum.inl 500 ∧
    (MState.initial.dimensionsAcc none).1 = Sum.inl ⟨40, 40, 40⟩ ∧
    (MState.initial.colorsAcc none).1 =
      Sum.inl ["green", "red", "yellow", "steelblue", "orange"] ∧
    (MState.initial.debugAcc none).1 = Sum.inl false ∧
    (MState.initial.xScaleAcc none).1 = Sum.inl none ∧
    (MState.initial.yScaleAcc none).1 = Sum.inl none ∧
    (MState.initial.zScaleAcc none).1 = Sum.inl none ∧
    (MState.initial.colorScaleAcc none).1 = Sum.inl none :=
  ⟨rfl, rfl, rfl, rfl, rfl, rfl, rfl, rfl, rfl, rfl, rfl, rfl, rfl, rfl, rfl,
   rfl, rfl⟩

/-- Claim C5: the vertical bar chart with default configuration and no
caller-supplied scales, rendered on
`[{key:"A", values:[{key:"q1", value:10}, {key:"q2", value:20}]}]`,
derives an x-scale with domain exactly `["q1", "q2"]` and a y-scale with
domain exactly `[0, 20]`. -/
theorem vertical_end_to_end_domains :
    ((renderV VState.initial sampleData).2.xScale).map Scale.keyDomain =
      some ["q1", "q2"] ∧
    ((renderV VState.initial sampleData).2.yScale).map Scale.numDomain =
      some ((0 : ℚ), 20) := by
  constructor
  · rfl
  · show ((initV VState.initial sampleData).yScale).map Scale.numDomain = _
    have hy := initV_yScale VState.initial sampleData
    rw [summary_sampleData] at hy
    rw [hy]
    simp [VState.initial, scaleLinearNiceOf, Scale.numDomain, nice10_0_20]

/-- Claim C6: the multi-series bar chart, rendered on a two-series dataset
with distinct series keys and no caller-supplied z-scale, derives a z-scale
whose domain is exactly the two series keys in input order. -/
theorem multiSeries_zDomain_series_keys (s : MState) (k1 k2 : String)
    (v1 v2 : List DataPoint) (hz : s.zScale = none) (hk : k1 ≠ k2) :
    ((renderM s [⟨k1, v1⟩, ⟨k2, v2⟩]).2.zScale).map Scale.keyDomain =
      some [k1, k2] := by
  show ((initM s [⟨k1, v1⟩, ⟨k2, v2⟩]).zScale).map Scale.keyDomain = _
  have h := initM_zScale s [⟨k1, v1⟩, ⟨k2, v2⟩]
  rw [hz] at h
  rw [h]
  simp [summary, scaleBandOf, uniq, uniqAux, Scale.keyDomain, Ne.symm hk]

/-- Witness for C6: a fresh multi-series chart on the concrete dataset with
series keys "S1", "S2" derives the z-domain `["S1", "S2"]`. -/
theorem multiSeries_zDomain_series_keys_witness :
    MState.initial.zScale = none ∧ "S1" ≠ "S2" ∧
      ((renderM MState.initial sampleData2).2.zScale).map Scale.keyDomain =
        some ["S1", "S2"] :=
  ⟨rfl, by decide,
   multiSeries_zDomain_series_keys MState.initial "S1" "S2"
     [⟨"q1", 10⟩, ⟨"q2", 20⟩] [⟨"q1", 15⟩, ⟨"q2", 5⟩] rfl (by decide)⟩

/-- Claim C7: on both charts, rendering with the debug flag set puts the
`showLog` and `showStat` attributes (both `"true"`) on the created `x3d`
viewport node, and rendering with debug unset (the default) puts neither
attribute there. -/
theorem debug_flag_viewport_attributes (sv : VState) (sm : MState)
    (d : List Series) :
    (("showLog", "true") ∈ (renderV sv d).1.attrsOf ↔ sv.debug = true) ∧
    (("showStat", "true") ∈ (renderV sv d).1.attrsOf ↔ sv.debug = true) ∧
    (("showLog", "true") ∈ (renderM sm d).1.attrsOf ↔ sm.debug = true) ∧
    (("showStat", "true") ∈ (renderM sm d).1.attrsOf ↔ sm.debug = true) := by
  cases hv : sv.debug <;> cases hm : sm.debug <;>
    simp [renderV, renderM, XNode.attrsOf, x3dAttrs, hv, hm]

/-- Claim C8: rendering either chart twice with the same dataset and
configuration — the second render seeing the closure state the first one
left behind — produces identical markup trees, so both renders have the
same named groups and hand identical invocations to every sub-component. -/
theorem render_deterministic (sv : VState) (sm : MState) (d : List Series) :
    (renderV (renderV sv d).2 d).1 = (renderV sv d).1 ∧
    (renderM (renderM sm d).2 d).1 = (renderM sm d).1 := by
  constructor
  · show (renderV (initV sv d) d).1 = (renderV sv d).1
    simp only [renderV, initV_idem, initV_width, initV_height, initV_debug,
      initV_classed]
  · show (renderM (initM sm d) d).1 = (renderM sm d).1
    simp only [renderM, initM_idem, initM_width, initM_height, initM_debug,
      initM_classed, initM_dimensions]

/-- Claim C9: every multi-series render appends exactly one directional
light node, with the fixed attributes `direction "1 0 -1"`, `on "true"`,
`intensity "0.4"`, `shadowintensity "0"`, independent of the configuration
state, and hands the viewpoint component a centre of rotation at the middle
of the configured dimensions box. -/
theorem multiSeries_light_and_viewpoint (sm : MState) (d : List Series) :
    (renderM sm d).1.nodesWithTag "directionallight" =
      [XNode.elem "directionallight" lightAttrs [] []] ∧
    ComponentCall.viewpoint none
        (some (sm.dimensions.x / 2, sm.dimensions.y / 2, sm.dimensions.z / 2)) ∈
      (renderM sm d).1.comps := by
  constructor
  · simp [renderM, XNode.nodesWithTag, nodesWithTagList]
  · simp [renderM, XNode.comps, compsList]

/-- Claim C10: the `colorScale` configuration variable never influences the
rendered output: two renders of either chart from states that differ only
in the colorScale variable produce identical markup trees (no sub-component
is handed the colour scale; the bars components receive the `colors`
array). -/
theorem colorScale_no_influence (sv : VState) (sm : MState) (d : List Series)
    (v w : Option Scale) :
    (renderV { sv with colorScale := v } d).1 =
      (renderV { sv with colorScale := w } d).1 ∧
    (renderM { sm with colorScale := v } d).1 =
      (renderM { sm with colorScale := w } d).1 := by
  constructor
  · simp only [renderV, initV_xScale, initV_yScale, initV_colors]
  · simp only [renderM, initM_xScale, initM_yScale, initM_zScale, initM_colors]

end D3X3d
